import Mathlib

set_option maxRecDepth 4000

/-!
Verification development for the mcp-web-search repository.

The embedding translates the Python source under `src/` into Lean:
 - `src/app/rag.py` : `chunk_text` (the condenser's chunking loop),
 - `src/app/mcp.py` : `handle_mcp_async`, `search_duckduckgo`, `scrape_async`
   and `generate_answer` (the RAG orchestration pipeline).

External collaborators (the DuckDuckGo search call, the HTTP GET + HTML
parse, the LLM completion call) are passed in as explicit oracle values, as
the spec itself scopes them out of the core.  Python loops that may fail to
terminate are embedded with an explicit fuel parameter returning `Option`
(`none` = the loop has not finished within `fuel` iterations).
-/

/-! ## Python string slicing

`text[a:b]` on a Python `str`, by code points, including the negative-index
and clamping rules, over `List Char`. -/

/-- Resolve one Python slice index against a string of length `len`:
a negative index counts from the end and clamps at `0`, a nonnegative one
clamps at `len`. -/
def pyIndex (len : Nat) (i : Int) : Nat :=
  if i < 0 then ((len : Int) + i).toNat else min i.toNat len

/-- Python `text[a:b]` (step 1) over a list of characters. -/
def pySlice (text : List Char) (a b : Int) : List Char :=
  ((text.drop (pyIndex text.length a)).take (pyIndex text.length b - pyIndex text.length a))

/-- Python `s.strip()` (also what BeautifulSoup applies to each fragment
under `strip=True`): leading and trailing whitespace removed, over the
code points. -/
def pyStrip (s : String) : String :=
  String.mk (((s.data.dropWhile Char.isWhitespace).reverse.dropWhile
    Char.isWhitespace).reverse)

/-- Python `s.lower()` over the code points. -/
def pyLower (s : String) : String :=
  String.mk (s.data.map Char.toLower)

/-! ## `chunk_text` (src/app/rag.py lines 12-20)

```python
def chunk_text(text, chunk_size=1000, overlap=100):
    chunks = []
    start = 0
    while start < len(text):
        end = min(start + chunk_size, len(text))
        chunks.append(text[start:end])
        start = end - overlap
    return chunks
```

The `while` loop is embedded with fuel; `start` is an `Int` because the
Python cursor `end - overlap` can go negative. -/

/-- One-to-one embedding of the `while start < len(text)` loop body of
`chunk_text`: `none` means the loop did not exit within `fuel` iterations. -/
def chunkTextLoop (text : List Char) (chunk_size overlap : Nat) :
    Nat → Int → List (List Char) → Option (List (List Char))
  | 0, _, _ => none
  | fuel + 1, start, chunks =>
    if start < (text.length : Int) then
      let e : Int := min (start + (chunk_size : Int)) (text.length : Int)
      chunkTextLoop text chunk_size overlap fuel (e - (overlap : Int))
        (chunks ++ [pySlice text start e])
    else
      some chunks

/-- `chunk_text(text, chunk_size, overlap)` with explicit fuel for the
`while` loop (`start` begins at `0`, `chunks` at `[]`). -/
def chunk_text (text : List Char) (chunk_size overlap : Nat) (fuel : Nat) :
    Option (List (List Char)) :=
  chunkTextLoop text chunk_size overlap fuel 0 []

/-- Once the cursor is anywhere below `len(text)` and `overlap ≥ 1`, the loop
never exits: the next cursor `min(start+chunk_size, len) - overlap` is again
below `len(text)`, so `chunkTextLoop` consumes every amount of fuel. -/
theorem chunkTextLoop_diverges (text : List Char) (chunk_size overlap : Nat)
    (hov : 1 ≤ overlap) :
    ∀ (fuel : Nat) (start : Int) (chunks : List (List Char)),
      start < (text.length : Int) →
      chunkTextLoop text chunk_size overlap fuel start chunks = none := by
  intro fuel
  induction fuel with
  | zero => intro start chunks _; rfl
  | succ n ih =>
    intro start chunks h
    simp only [chunkTextLoop, if_pos h]
    apply ih
    have h1 : min (start + (chunk_size : Int)) ((text.length : Nat) : Int) ≤
        ((text.length : Nat) : Int) := min_le_right _ _
    omega

/-- `chunk_text` diverges on every non-empty text as soon as `overlap ≥ 1`,
however large `chunk_size` is. -/
theorem chunk_text_diverges (text : List Char) (chunk_size overlap : Nat)
    (hov : 1 ≤ overlap) (htext : text ≠ []) (fuel : Nat) :
    chunk_text text chunk_size overlap fuel = none := by
  apply chunkTextLoop_diverges text chunk_size overlap hov fuel 0 []
  have : 0 < text.length := List.length_pos.mpr htext
  omega

/-- C1: `chunk_text("abcde", chunk_size=3, overlap=1)` — a valid
configuration with `overlap < chunk_size` — never terminates: the cursor
advances `0 → 2 → 4` and then stalls at `start = 4 = len - overlap`
(`end = min(4+3,5) = 5`, next `start = 5 - 1 = 4`), so for every amount of
fuel the loop is still running.  This contradicts the documented guarantee
of termination in `O(length/window_size)` steps whenever
`overlap < window_size`. -/
theorem chunk_text_c1_stalls_below_window (fuel : Nat) :
    chunk_text ['a', 'b', 'c', 'd', 'e'] 3 1 fuel = none :=
  chunk_text_diverges _ 3 1 (le_refl 1) (by simp) fuel

/-- C8: `chunk_text("abcdef", window_size=4, overlap=2)` — again
`overlap < window_size` — produces no sequence of windows at all (the cursor
stalls at `start = 4 = len - overlap`), so no re-joining of its windows can
reconstruct `"abcdef"`: the round-trip property fails because the chunking
loop never returns. -/
theorem chunk_text_c8_no_roundtrip (fuel : Nat) :
    chunk_text ['a', 'b', 'c', 'd', 'e', 'f'] 4 2 fuel = none :=
  chunk_text_diverges _ 4 2 (by omega) (by simp) fuel

/-! ## Content extraction (src/app/mcp.py lines 90-121, `scrape_async`)

The HTML soup is modelled as a tree of element and text nodes carrying the
attributes the source's CSS selectors inspect: tag name, `id`, `class` list
and the `role` attribute.  `BeautifulSoup.select` returns matches in
document order; `get_text(strip=True)` strips every text fragment and
concatenates the non-empty ones with no separator; `decompose()` removes a
matched subtree. -/

/-- A parsed HTML node: a text fragment, or an element with tag name, `id`,
classes, `role` attribute and children. -/
inductive Node where
  | text (s : String)
  | elem (tag : String) (idAttr : Option String) (classes : List String)
      (role : Option String) (children : List Node)

/-- The selector forms the source uses: a tag name (`article`), a class
(`.content`), an id (`#content`) or the attribute selector `[role="main"]`. -/
inductive Selector where
  | tagSel (t : String)
  | classSel (c : String)
  | idSel (i : String)
  | roleSel (r : String)
deriving DecidableEq, Repr

/-- Does one element node match a selector (text nodes match nothing)? -/
def matchesSel (s : Selector) : Node → Bool
  | Node.text _ => false
  | Node.elem tag idAttr classes role _ =>
    match s with
    | Selector.tagSel t => tag == t
    | Selector.classSel c => classes.contains c
    | Selector.idSel i => idAttr == some i
    | Selector.roleSel r => role == some r

mutual

/-- All element nodes of a tree in document (preorder) order, the node
itself included. -/
def elemsOf : Node → List Node
  | Node.text _ => []
  | Node.elem tag idAttr classes role children =>
    Node.elem tag idAttr classes role children :: elemsList children

/-- `elemsOf` over a list of sibling subtrees, left to right. -/
def elemsList : List Node → List Node
  | [] => []
  | n :: ns => elemsOf n ++ elemsList ns

end

mutual

/-- The text fragments of a tree in document order. -/
def fragmentsOf : Node → List String
  | Node.text s => [s]
  | Node.elem _ _ _ _ children => fragmentsList children

/-- `fragmentsOf` over a list of sibling subtrees, left to right. -/
def fragmentsList : List Node → List String
  | [] => []
  | n :: ns => fragmentsOf n ++ fragmentsList ns

end

/-- `soup.select(sel)`: every matching element of the document, in document
order. -/
def selectSel (doc : Node) (s : Selector) : List Node :=
  (elemsOf doc).filter (matchesSel s)

/-- `elem.get_text(strip=True)`: each text fragment stripped of surrounding
whitespace, the empty ones dropped, the rest concatenated with no
separator. -/
def getTextStrip (n : Node) : String :=
  String.join (((fragmentsOf n).map pyStrip).filter (fun s => s ≠ ""))

/-- `elem.get_text()`: the raw text fragments concatenated with no
separator (used only to state the claim's reading of "visible text"). -/
def getTextRaw (n : Node) : String :=
  String.join (fragmentsOf n)

mutual

/-- `elem.decompose()` applied to every match of a selector: the tree with
every matching element (whole subtree) removed; `none` when the root itself
matched. -/
def removeSel (s : Selector) : Node → Option Node
  | Node.text t => some (Node.text t)
  | Node.elem tag idAttr classes role children =>
    if matchesSel s (Node.elem tag idAttr classes role children) then none
    else some (Node.elem tag idAttr classes role (removeSelList s children))

/-- `removeSel` over a list of sibling subtrees. -/
def removeSelList (s : Selector) : List Node → List Node
  | [] => []
  | n :: ns =>
    match removeSel s n with
    | none => removeSelList s ns
    | some n' => n' :: removeSelList s ns

end

/-- `s[:n]` on a Python `str`: the first `n` code points (`List.take` over
the characters, so it evaluates cheaply on short strings). -/
def pyTruncate (n : Nat) (s : String) : String :=
  String.mk (s.data.take n)

/-- The source's ordered content-selector preference list
(`['article', 'main', '[role="main"]', '.content', '#content', '.post', '.entry']`). -/
def contentSelectors : List Selector :=
  [Selector.tagSel "article", Selector.tagSel "main", Selector.roleSel "main",
   Selector.classSel "content", Selector.idSel "content",
   Selector.classSel "post", Selector.classSel "entry"]

/-- The source's boilerplate-removal list
(`['nav', 'header', 'footer', 'aside', '.sidebar', '#sidebar', '.menu', '.ad', '.advertisement']`). -/
def removalSelectors : List Selector :=
  [Selector.tagSel "nav", Selector.tagSel "header", Selector.tagSel "footer",
   Selector.tagSel "aside", Selector.classSel "sidebar", Selector.idSel "sidebar",
   Selector.classSel "menu", Selector.classSel "ad", Selector.classSel "advertisement"]

/-- The `for tag in [...]: content = soup.select(tag); if content: ...; break`
loop: the matches of the first selector that matches at least one element. -/
def firstMatch : List Selector → Node → Option (List Node)
  | [], _ => none
  | s :: rest, doc =>
    let m := selectSel doc s
    if m.isEmpty then firstMatch rest doc else some m

/-- The fallback branch of `scrape_async`: decompose every boilerplate
match, then `soup.get_text(strip=True)` on what is left (an empty string
when the whole document was decomposed). -/
def fallbackText (doc : Node) : String :=
  match removalSelectors.foldl (fun acc s => acc.bind (removeSel s)) (some doc) with
  | none => ""
  | some d => getTextStrip d

/-- The pure content-extraction part of `scrape_async` (lines 100-118),
given the parsed document: first selector with a match wins and its matches'
`get_text(strip=True)` texts are joined by single spaces; when no selector
matched — or the joined text is empty, since the code re-tests the falsy
`main_content` — boilerplate is removed and the whole document's text is
used; the result is truncated to 1500 characters. -/
def extract (doc : Node) : String :=
  let main_content :=
    match firstMatch contentSelectors doc with
    | some ms => String.intercalate " " (ms.map getTextStrip)
    | none => ""
  let main_content := if main_content = "" then fallbackText doc else main_content
  pyTruncate 1500 main_content

/-! ## The RAG orchestrator (src/app/mcp.py)

`handle_mcp_async`, `search_duckduckgo`, `scrape_async` and
`generate_answer`, with the external calls passed in as oracles:

 - `ddgs` — what `DDGS().text(...)` returns: an error (any raised
   exception's message) or the list of result items;
 - `fetch` — the HTTP GET of one URL plus the BeautifulSoup parse: an error
   (timeout, connection error, unsupported/empty URL, ...) or the parsed
   document handed to the pure extractor;
 - `callAI` — the provider completion call behind `call_ai_api`: an error
   message or the generated text.

Besides the response, the embedding records which URLs were passed to
`scrape_async` and which `(prompt, provider)` pairs were passed to
`call_ai_api`, so that "is fetched" and "the completion call is made
against ..." are statable. -/

/-- One DuckDuckGo result item; only the `href` field is read by the
source (`r.get("href", "")`), so only it is modelled.  `none` models a
result dict with no `"href"` key. -/
structure SearchItem where
  href : Option String
deriving DecidableEq, Repr

/-- The inbound MCP request dict: `none` for `content` models a dict with
no `'content'` key, likewise for `'provider'`. -/
structure Request where
  content : Option String
  provider : Option String
deriving DecidableEq, Repr

/-- Which provider credentials are configured (`MISTRAL_API_KEY`,
`GEMINI_API_KEY` truthy or not). -/
structure Keys where
  mistral : Bool
  gemini : Bool
deriving DecidableEq, Repr

/-- The outbound MCP response dict.  `provider = none` models a response
dict carrying no `"provider"` key. -/
structure Response where
  rtype : String
  content : String
  sources : List String
  provider : Option String
deriving DecidableEq, Repr

/-- A raised `fastapi.HTTPException`. -/
structure HTTPError where
  status : Nat
  detail : String
deriving DecidableEq, Repr

/-- `str(...)` of an `HTTPException` (starlette renders it as
`"{status_code}: {detail}"`), as used by the blanket
`except Exception as e: raise HTTPException(500, str(e))` handler. -/
def strOfHTTPError (e : HTTPError) : String :=
  toString e.status ++ ": " ++ e.detail

/-- One run of the orchestrator: the response plus the observable calls it
made (URLs passed to `scrape_async`, their extracted/sentinel texts, and
the `(prompt, provider)` arguments of every `call_ai_api` invocation). -/
structure RunResult where
  response : Response
  fetched : List String
  contents : List String
  completions : List (String × String)
deriving DecidableEq, Repr

/-- Modelled from the spec: the `app.api` package (its `__init__.py` is not
among the repository files under `src/`) exposes `AVAILABLE_PROVIDERS`, the
fixed set of supported LLM backends — per the spec, the two providers
`mistral` and `gemini`. -/
def AVAILABLE_PROVIDERS : List String := ["mistral", "gemini"]

/-- `search_duckduckgo` (lines 65-88): on a raised search error an empty
list; otherwise `[r.get("href", "") for r in results]`. -/
def search_duckduckgo (ddgs : Except String (List SearchItem)) : List String :=
  match ddgs with
  | Except.error _ => []
  | Except.ok results => results.map (fun r => r.href.getD "")

/-- `scrape_async` (lines 90-121): a successful GET + parse goes through the
pure extractor; any raised error `e` becomes the sentinel text
`"[Scraping Error] " + str(e)`. -/
def scrape_async (fetch : String → Except String Node) (url : String) : String :=
  match fetch url with
  | Except.ok doc => extract doc
  | Except.error e => "[Scraping Error] " ++ e

/-- The f-string prompt of `generate_answer` (line 132). -/
def mkPrompt (question context : String) : String :=
  "Answer the question: " ++ question ++ "\n\nHere is the information found:\n" ++ context

/-- Lines 139-144 of `generate_answer`: if the requested provider's key is
missing, substitute the other provider. -/
def fallbackProvider (provider : String) (keys : Keys) : String :=
  if provider == "gemini" && !keys.gemini then "mistral"
  else if provider == "mistral" && !keys.mistral then "gemini"
  else provider

/-- Line 147 of `generate_answer`: after the fallback, is the (possibly
substituted) provider still without a key? -/
def noKeyLeft (p : String) (keys : Keys) : Bool :=
  (p == "gemini" && !keys.gemini) || (p == "mistral" && !keys.mistral)

/-- Line 148's answer when both keys are missing. -/
def noKeysMsg : String :=
  "Unable to generate response: No valid API keys found for any provider."

/-- `generate_answer` (lines 123-159): joins all texts with `"\n\n"` into
the context, falls back to the alternate provider when the requested one
has no key, answers with the no-keys message when neither key is present,
and otherwise delegates to `call_ai_api` (modelled from the spec: the
dispatcher `call_ai_api`, imported from `.rag` but absent from the files
under `src/`, forwards the prompt to the named provider's completion call —
here the `callAI` oracle), converting a raised completion error into the
apologetic message.  The second component records the `(prompt, provider)`
arguments of the `call_ai_api` invocation, `[]` when none was made. -/
def generate_answer (question : String) (texts : List String) (provider : String)
    (keys : Keys) (callAI : String → String → Except String String) :
    String × List (String × String) :=
  let context := String.intercalate "\n\n" texts
  let prompt := mkPrompt question context
  let p := fallbackProvider provider keys
  if noKeyLeft p keys then (noKeysMsg, [])
  else
    match callAI prompt p with
    | Except.ok r => (r, [(prompt, p)])
    | Except.error e =>
      ("I found some information but couldn't generate a response. Error: " ++ e,
       [(prompt, p)])

/-- The canned answer when no content was scraped (line 42). -/
def noInfoMsg (query : String) : String :=
  "I couldn't find relevant information about '" ++ query ++ "'."

/-- Lines 24-31 of `handle_mcp_async`: the requested provider, defaulted to
`"gemini"` when absent, lower-cased, and replaced by `"gemini"` when not in
`AVAILABLE_PROVIDERS`. -/
def resolveRequested (req : Request) : String :=
  let provider0 := pyLower (req.provider.getD "gemini")
  if AVAILABLE_PROVIDERS.contains provider0 then provider0 else "gemini"

/-- The success branch of `handle_mcp_async` (lines 22-49): normalise and
validate the provider, search, fan out `scrape_async` over the first 5
links, generate the answer, assemble the response.  Every failure of the
modelled externals is already absorbed by `search_duckduckgo` /
`scrape_async` / `generate_answer`, so the inner `except` branch
(lines 50-57) has nothing left to catch. -/
def mcpRun (query : String) (req : Request) (keys : Keys)
    (ddgs : Except String (List SearchItem)) (fetch : String → Except String Node)
    (callAI : String → String → Except String String) : RunResult :=
  let provider := resolveRequested req
  let links := search_duckduckgo ddgs
  let fetched := if links.isEmpty then [] else links.take 5
  let contents := fetched.map (scrape_async fetch)
  let ans :=
    if contents.isEmpty then (noInfoMsg query, [])
    else generate_answer query contents provider keys callAI
  { response :=
      { rtype := "response", content := ans.1,
        sources := if links.isEmpty then [] else links.take 5,
        provider := some provider },
    fetched := fetched, contents := contents, completions := ans.2 }

/-- The dispatch of `handle_mcp_async`'s outer `try` on the `content` key:
a missing `content` raises the 400, everything else is `mcpRun`. -/
def handle_mcp_body (req : Request) (keys : Keys)
    (ddgs : Except String (List SearchItem)) (fetch : String → Except String Node)
    (callAI : String → String → Except String String) :
    Except HTTPError RunResult :=
  match req.content with
  | none => Except.error { status := 400, detail := "Missing content in MCP request" }
  | some query => Except.ok (mcpRun query req keys ddgs fetch callAI)

/-- `handle_mcp_async` (lines 14-63): the outer
`except Exception as e: raise HTTPException(500, str(e))` re-wraps every
escaping exception — its own 400 for a missing `content` included — as a
500. -/
def handle_mcp_async (req : Request) (keys : Keys)
    (ddgs : Except String (List SearchItem)) (fetch : String → Except String Node)
    (callAI : String → String → Except String String) :
    Except HTTPError RunResult :=
  match handle_mcp_body req keys ddgs fetch callAI with
  | Except.error e => Except.error { status := 500, detail := strOfHTTPError e }
  | Except.ok r => Except.ok r

/-! ## Claim theorems -/

/-- C3: a request without the `content` key does NOT reach the caller as a
client error.  `handle_mcp_async` raises `HTTPException(400, "Missing
content in MCP request")` at line 20, but that raise happens inside its own
outer `try`, whose blanket `except Exception as e: raise
HTTPException(500, str(e))` (lines 61-63) catches the 400 — `HTTPException`
is an `Exception` — and re-raises it as a server error 500 whose detail is
the stringified 400.  So every missing-`content` request fails with status
500, not 4xx. -/
theorem handle_mcp_c3_missing_content_is_500 (req : Request) (keys : Keys)
    (ddgs : Except String (List SearchItem)) (fetch : String → Except String Node)
    (callAI : String → String → Except String String)
    (h : req.content = none) :
    handle_mcp_async req keys ddgs fetch callAI =
      Except.error { status := 500, detail := "400: Missing content in MCP request" } := by
  unfold handle_mcp_async handle_mcp_body
  rw [h]
  rfl

/-- Witness for C3 at the concrete request `{}` (no `content`, no
`provider`). -/
theorem handle_mcp_c3_witness :
    handle_mcp_async { content := none, provider := none } { mistral := true, gemini := true }
        (Except.ok []) (fun _ => Except.error "e") (fun _ _ => Except.ok "a") =
      Except.error { status := 500, detail := "400: Missing content in MCP request" } :=
  handle_mcp_c3_missing_content_is_500 _ _ _ _ _ rfl

/-- With `content` present, `handle_mcp_async` never raises: it returns the
assembled run. -/
theorem handle_mcp_async_ok (req : Request) (keys : Keys)
    (ddgs : Except String (List SearchItem)) (fetch : String → Except String Node)
    (callAI : String → String → Except String String) (query : String)
    (hc : req.content = some query) :
    handle_mcp_async req keys ddgs fetch callAI =
      Except.ok (mcpRun query req keys ddgs fetch callAI) := by
  unfold handle_mcp_async handle_mcp_body
  rw [hc]

/-- A Python truthiness artefact of lines 40 and 47: `links[:5] if links
else []` is `links[:5]` outright. -/
theorem ite_isEmpty_take (links : List String) :
    (if links.isEmpty then ([] : List String) else links.take 5) = links.take 5 := by
  cases links <;> simp

/-- C5: when the search step yields no URLs, the response is the canned
`"I couldn't find relevant information about '<query>'."` with `type`
`"response"` and empty `sources`, and no completion call is made: `contents`
is empty, so `generate_answer` — and hence the LLM — is never invoked. -/
theorem handle_mcp_c5_empty_search (req : Request) (keys : Keys)
    (ddgs : Except String (List SearchItem)) (fetch : String → Except String Node)
    (callAI : String → String → Except String String) (query : String)
    (hc : req.content = some query) (hs : search_duckduckgo ddgs = []) :
    (handle_mcp_async req keys ddgs fetch callAI).map
        (fun r => (r.response.rtype, r.response.content, r.response.sources, r.completions)) =
      Except.ok ("response",
        "I couldn't find relevant information about '" ++ query ++ "'.", [], []) := by
  rw [handle_mcp_async_ok req keys ddgs fetch callAI query hc]
  unfold mcpRun
  rw [hs]
  rfl

/-- Witness for C5: a concrete query whose search returns `[]`. -/
theorem handle_mcp_c5_witness :
    (handle_mcp_async { content := some "capital of France", provider := none }
        { mistral := true, gemini := true } (Except.ok [])
        (fun _ => Except.error "e") (fun _ _ => Except.ok "a")).map
        (fun r => (r.response.rtype, r.response.content, r.response.sources, r.completions)) =
      Except.ok ("response",
        "I couldn't find relevant information about '" ++ "capital of France" ++ "'.",
        [], []) :=
  handle_mcp_c5_empty_search _ _ _ _ _ _ rfl rfl

/-- C6: for every request with `content` and every search outcome, the list
of URLs passed to `scrape_async` and the response's `sources` are both the
first-5 prefix `links[:5]` of the searched URLs — order preserving, of
length `min 5 (number returned)`, hence both of length at most 5. -/
theorem handle_mcp_c6_fanout_bound (req : Request) (keys : Keys)
    (ddgs : Except String (List SearchItem)) (fetch : String → Except String Node)
    (callAI : String → String → Except String String) (query : String)
    (hc : req.content = some query) :
    ∃ r, handle_mcp_async req keys ddgs fetch callAI = Except.ok r ∧
      r.fetched = (search_duckduckgo ddgs).take 5 ∧
      r.response.sources = (search_duckduckgo ddgs).take 5 ∧
      r.fetched.length ≤ 5 ∧
      r.response.sources.length = min 5 (search_duckduckgo ddgs).length := by
  rw [handle_mcp_async_ok req keys ddgs fetch callAI query hc]
  refine ⟨_, rfl, ?_, ?_, ?_, ?_⟩ <;>
    simp only [mcpRun, ite_isEmpty_take] <;>
    simp [List.length_take]

/-- Witness for C6: seven search results, five fetched and five sources. -/
theorem handle_mcp_c6_witness :
    ∃ r, handle_mcp_async { content := some "q", provider := none }
          { mistral := true, gemini := true }
          (Except.ok [⟨some "u1"⟩, ⟨some "u2"⟩, ⟨some "u3"⟩, ⟨some "u4"⟩,
            ⟨some "u5"⟩, ⟨some "u6"⟩, ⟨some "u7"⟩])
          (fun _ => Except.error "e") (fun _ _ => Except.ok "a") = Except.ok r ∧
      r.fetched = (search_duckduckgo (Except.ok [⟨some "u1"⟩, ⟨some "u2"⟩, ⟨some "u3"⟩,
          ⟨some "u4"⟩, ⟨some "u5"⟩, ⟨some "u6"⟩, ⟨some "u7"⟩])).take 5 ∧
      r.response.sources = (search_duckduckgo (Except.ok [⟨some "u1"⟩, ⟨some "u2"⟩,
          ⟨some "u3"⟩, ⟨some "u4"⟩, ⟨some "u5"⟩, ⟨some "u6"⟩, ⟨some "u7"⟩])).take 5 ∧
      r.fetched.length ≤ 5 ∧
      r.response.sources.length = min 5 (search_duckduckgo (Except.ok [⟨some "u1"⟩,
          ⟨some "u2"⟩, ⟨some "u3"⟩, ⟨some "u4"⟩, ⟨some "u5"⟩, ⟨some "u6"⟩,
          ⟨some "u7"⟩])).length :=
  handle_mcp_c6_fanout_bound _ _ _ _ _ _ rfl

/-! ## C9: the extractor against the claim's description -/

/-- The extractor as claim C9 words it: "the first selector in its ordered
preference list that matches at least one element" wins, "returning the
trimmed texts of all its matches in document order joined by single
spaces"; only "if no selector matches" does it remove boilerplate and use
the whole-document text; truncated to 1500. -/
def extractClaim (doc : Node) : String :=
  pyTruncate 1500
    (match firstMatch contentSelectors doc with
     | some ms => String.intercalate " " (ms.map (fun m => pyStrip (getTextRaw m)))
     | none => fallbackText doc)

/-- The extractor as the code actually behaves (the amended claim): the
first selector with at least one match is selected, each match's text is
its fragments individually stripped and concatenated (so whitespace at
fragment boundaries inside a match is collapsed, not preserved), matches
are joined by single spaces; the boilerplate-removal whole-document
fallback is used not only when no selector matches but also whenever the
selected joined text is empty (the code re-tests the falsy
`main_content`); the result is truncated to 1500 characters. -/
def extractAmended (doc : Node) : String :=
  let joined :=
    match contentSelectors.find? (fun s => !(selectSel doc s).isEmpty) with
    | some s => String.intercalate " " ((selectSel doc s).map getTextStrip)
    | none => ""
  pyTruncate 1500 (if joined = "" then fallbackText doc else joined)

/-- The source's first-match-and-break loop picks exactly the matches of
the first selector whose `select` is non-empty. -/
theorem firstMatch_eq_find (sels : List Selector) (doc : Node) :
    firstMatch sels doc =
      (sels.find? (fun s => !(selectSel doc s).isEmpty)).map (selectSel doc) := by
  induction sels with
  | nil => rfl
  | cons s rest ih =>
    simp only [firstMatch, List.find?]
    cases h : (selectSel doc s).isEmpty with
    | true => simpa [h] using ih
    | false => simp [h]

/-- C9 (amended): the source's `extract` coincides, on every document, with
the amended description `extractAmended`. -/
theorem extract_c9_amended_eq (doc : Node) : extract doc = extractAmended doc := by
  unfold extract extractAmended
  rw [firstMatch_eq_find]
  cases contentSelectors.find? (fun s => !(selectSel doc s).isEmpty) <;> rfl

/-- The document `<body><article></article><p>hello</p></body>`: an empty
`article` followed by a paragraph. -/
def c9doc : Node :=
  Node.elem "body" none [] none
    [Node.elem "article" none [] none [],
     Node.elem "p" none [] none [Node.text "hello"]]

/-- Counterexample to C9 as stated: in `c9doc` the first matching selector
is `article` (it matches one element), so per the claim the result is that
match's trimmed text, the empty string.  The code instead re-tests the
falsy joined text and falls through to the whole-document fallback,
returning `"hello"`. -/
theorem extract_c9_counterexample :
    extract c9doc = "hello" ∧ extractClaim c9doc = "" ∧
      extract c9doc ≠ extractClaim c9doc := by
  have h1 : extract c9doc = "hello" := rfl
  have h2 : extractClaim c9doc = "" := rfl
  refine ⟨h1, h2, ?_⟩
  rw [h1, h2]
  decide

/-! ## C2 and C7: provider resolution, fallback, and what the response reports -/

/-- When the resolved provider still has its key, `generate_answer` makes
exactly one completion call: `call_ai_api(prompt, fallbackProvider(...))`. -/
theorem generate_answer_completions (question : String) (texts : List String)
    (provider : String) (keys : Keys) (callAI : String → String → Except String String)
    (h : noKeyLeft (fallbackProvider provider keys) keys = false) :
    (generate_answer question texts provider keys callAI).2 =
      [(mkPrompt question (String.intercalate "\n\n" texts),
        fallbackProvider provider keys)] := by
  simp only [generate_answer, h, Bool.false_eq_true, if_false]
  cases callAI (mkPrompt question (String.intercalate "\n\n" texts))
      (fallbackProvider provider keys) <;> rfl

/-- With neither key configured, `generate_answer` makes no completion call
and answers with the no-keys message (for the two providers the orchestrator
can hand it). -/
theorem generate_answer_no_keys (question : String) (texts : List String)
    (provider : String) (callAI : String → String → Except String String)
    (hprov : provider = "gemini" ∨ provider = "mistral") :
    generate_answer question texts provider { mistral := false, gemini := false } callAI =
      (noKeysMsg, []) := by
  rcases hprov with h | h <;> subst h <;> rfl

/-- Line 29-31's validation leaves only the two supported provider names. -/
theorem resolveRequested_mem (req : Request) :
    resolveRequested req = "mistral" ∨ resolveRequested req = "gemini" := by
  simp only [resolveRequested]
  split
  · rename_i h
    simp only [AVAILABLE_PROVIDERS, List.contains_cons, List.contains_nil,
      Bool.or_eq_true, beq_iff_eq] at h
    rcases h with h | h | h
    · exact Or.inl h
    · exact Or.inr h
    · cases h
  · exact Or.inr rfl

/-- The response's `provider` field is always the validated requested
provider of line 25-31, whatever `generate_answer` did internally. -/
theorem mcpRun_provider (query : String) (req : Request) (keys : Keys)
    (ddgs : Except String (List SearchItem)) (fetch : String → Except String Node)
    (callAI : String → String → Except String String) :
    (mcpRun query req keys ddgs fetch callAI).response.provider =
      some (resolveRequested req) := rfl

/-- With at least one search link, the orchestrator's completion calls are
exactly those of `generate_answer` on the scraped texts. -/
theorem mcpRun_completions (query : String) (req : Request) (keys : Keys)
    (ddgs : Except String (List SearchItem)) (fetch : String → Except String Node)
    (callAI : String → String → Except String String) (u : String) (us : List String)
    (hl : search_duckduckgo ddgs = u :: us) :
    (mcpRun query req keys ddgs fetch callAI).completions =
      (generate_answer query ((List.take 5 (u :: us)).map (scrape_async fetch))
        (resolveRequested req) keys callAI).2 := by
  simp only [mcpRun, hl, List.isEmpty_cons, Bool.false_eq_true, if_false,
    List.take_succ_cons, List.map_cons]

/-- Counterexample to C2 as stated: requested provider `"gemini"` with no
Gemini key while the Mistral key is present.  The completion call is made
against `"mistral"` (the alternate), but the response's `provider` field is
`"gemini"` — the originally requested provider — because `generate_answer`'s
local fallback never reaches the response assembled at line 48. -/
theorem handle_mcp_c2_counterexample :
    (handle_mcp_async { content := some "q", provider := some "gemini" }
        { mistral := true, gemini := false }
        (Except.ok [{ href := some "https://a.example" }])
        (fun _ => Except.ok (Node.text "Paris is the capital of France"))
        (fun _ p => Except.ok ("answer from " ++ p))).map
        (fun r => (r.response.provider, r.completions.map Prod.snd)) =
      Except.ok (some "gemini", ["mistral"]) ∧ ("gemini" : String) ≠ "mistral" := by
  refine ⟨rfl, ?_⟩
  decide

/-- C2 (amended): whenever the requested provider (after defaulting,
lower-casing and validation) lacks its credential while the alternate's is
present, the single completion call is made against the alternate provider,
but the `provider` field of the returned response still reports the
originally requested provider — the fallback is not reflected in the
response. -/
theorem handle_mcp_c2_fallback (req : Request) (keys : Keys)
    (ddgs : Except String (List SearchItem)) (fetch : String → Except String Node)
    (callAI : String → String → Except String String) (query alt : String)
    (hc : req.content = some query)
    (hlinks : search_duckduckgo ddgs ≠ [])
    (hcase :
      (resolveRequested req = "gemini" ∧ keys.gemini = false ∧ keys.mistral = true ∧
        alt = "mistral") ∨
      (resolveRequested req = "mistral" ∧ keys.mistral = false ∧ keys.gemini = true ∧
        alt = "gemini")) :
    (handle_mcp_async req keys ddgs fetch callAI).map
        (fun r => (r.response.provider, r.completions.map Prod.snd)) =
      Except.ok (some (resolveRequested req), [alt]) := by
  rw [handle_mcp_async_ok req keys ddgs fetch callAI query hc]
  cases hl : search_duckduckgo ddgs with
  | nil => exact absurd hl hlinks
  | cons u us =>
    obtain ⟨m, g⟩ := keys
    rcases hcase with ⟨hp, hg, hm, ha⟩ | ⟨hp, hm, hg, ha⟩
    · dsimp only at hg hm
      subst hg; subst hm; subst ha
      simp only [Except.map, mcpRun_provider,
        mcpRun_completions query req _ ddgs fetch callAI u us hl, hp]
      rw [generate_answer_completions query ((List.take 5 (u :: us)).map (scrape_async fetch))
          "gemini" { mistral := true, gemini := false } callAI rfl]
      rfl
    · dsimp only at hg hm
      subst hm; subst hg; subst ha
      simp only [Except.map, mcpRun_provider,
        mcpRun_completions query req _ ddgs fetch callAI u us hl, hp]
      rw [generate_answer_completions query ((List.take 5 (u :: us)).map (scrape_async fetch))
          "mistral" { mistral := false, gemini := true } callAI rfl]
      rfl

/-- Witness for C2 (amended): requested `"mistral"` without its key, Gemini
key present — the call goes to `"gemini"`, the response still says
`"mistral"`. -/
theorem handle_mcp_c2_fallback_witness :
    (handle_mcp_async { content := some "q", provider := some "mistral" }
        { mistral := false, gemini := true }
        (Except.ok [{ href := some "https://a.example" }])
        (fun _ => Except.ok (Node.text "Paris"))
        (fun _ p => Except.ok ("answer from " ++ p))).map
        (fun r => (r.response.provider, r.completions.map Prod.snd)) =
      Except.ok (some "mistral", ["gemini"]) :=
  handle_mcp_c2_fallback _ _ _ _ _ "q" "gemini" rfl (by decide)
    (Or.inr ⟨rfl, rfl, rfl, rfl⟩)

/-- `generate_answer` makes at most one completion call. -/
theorem generate_answer_at_most_one (question : String) (texts : List String)
    (provider : String) (keys : Keys) (callAI : String → String → Except String String) :
    (generate_answer question texts provider keys callAI).2 = [] ∨
      ∃ c, (generate_answer question texts provider keys callAI).2 = [c] := by
  simp only [generate_answer]
  split
  · exact Or.inl rfl
  · split
    · exact Or.inr ⟨_, rfl⟩
    · exact Or.inr ⟨_, rfl⟩

/-- With at least one search link, the response's `content` is
`generate_answer`'s answer on the scraped texts. -/
theorem mcpRun_content (query : String) (req : Request) (keys : Keys)
    (ddgs : Except String (List SearchItem)) (fetch : String → Except String Node)
    (callAI : String → String → Except String String) (u : String) (us : List String)
    (hl : search_duckduckgo ddgs = u :: us) :
    (mcpRun query req keys ddgs fetch callAI).response.content =
      (generate_answer query ((List.take 5 (u :: us)).map (scrape_async fetch))
        (resolveRequested req) keys callAI).1 := by
  simp only [mcpRun, hl, List.isEmpty_cons, Bool.false_eq_true, if_false,
    List.take_succ_cons, List.map_cons]

/-- The fetched fan-out is always the 5-prefix of the searched links. -/
theorem mcpRun_fetched (query : String) (req : Request) (keys : Keys)
    (ddgs : Except String (List SearchItem)) (fetch : String → Except String Node)
    (callAI : String → String → Except String String) :
    (mcpRun query req keys ddgs fetch callAI).fetched =
      (search_duckduckgo ddgs).take 5 := by
  simp only [mcpRun, ite_isEmpty_take]

/-- Counterexample to C7's "the provider used is reported": Gemini
requested without its key, Mistral key present — the provider actually used
for the completion is `"mistral"`, yet the response reports `"gemini"`. -/
theorem handle_mcp_c7_counterexample :
    (handle_mcp_async { content := some "what is RAG", provider := some "gemini" }
        { mistral := true, gemini := false }
        (Except.ok [{ href := some "https://rag.example" }])
        (fun _ => Except.ok (Node.text "retrieval augmented generation"))
        (fun _ p => Except.ok ("by " ++ p))).map
        (fun r => (r.response.provider, r.completions.map Prod.snd)) =
      Except.ok (some "gemini", ["mistral"]) ∧
      (some "gemini" : Option String) ≠ some "mistral" := by
  refine ⟨rfl, ?_⟩
  decide

/-- C7 (amended): for every request with `content`, the orchestrator's
response always carries a `provider` field — `some (resolveRequested req)`,
the validated requested provider, which under fallback can differ from the
provider actually used; at most one completion call is made (exactly one
concrete provider resolved); and when neither credential is configured no
completion call happens and, when URLs were fetched at all, the `content`
explains that no provider's API key is available — a normal response, not a
raised error. -/
theorem handle_mcp_c7_provider_always_set (req : Request) (keys : Keys)
    (ddgs : Except String (List SearchItem)) (fetch : String → Except String Node)
    (callAI : String → String → Except String String) (query : String)
    (hc : req.content = some query) :
    ∃ r, handle_mcp_async req keys ddgs fetch callAI = Except.ok r ∧
      r.response.provider = some (resolveRequested req) ∧
      (r.completions = [] ∨ ∃ c, r.completions = [c]) ∧
      (keys.mistral = false → keys.gemini = false →
        r.completions = [] ∧ (r.fetched ≠ [] → r.response.content = noKeysMsg)) := by
  rw [handle_mcp_async_ok req keys ddgs fetch callAI query hc]
  refine ⟨_, rfl, mcpRun_provider query req keys ddgs fetch callAI, ?_, ?_⟩
  · cases hl : search_duckduckgo ddgs with
    | nil =>
      left
      simp only [mcpRun, hl]
      rfl
    | cons u us =>
      rw [mcpRun_completions query req keys ddgs fetch callAI u us hl]
      exact generate_answer_at_most_one _ _ _ _ _
  · intro hm hg
    obtain ⟨m, g⟩ := keys
    dsimp only at hm hg
    subst hm; subst hg
    cases hl : search_duckduckgo ddgs with
    | nil =>
      constructor
      · simp only [mcpRun, hl]
        rfl
      · intro hf
        exact absurd (by simp only [mcpRun_fetched, hl]; rfl) hf
    | cons u us =>
      have hnk := generate_answer_no_keys query
        ((List.take 5 (u :: us)).map (scrape_async fetch)) (resolveRequested req) callAI
        ((resolveRequested_mem req).symm)
      constructor
      · rw [mcpRun_completions query req _ ddgs fetch callAI u us hl, hnk]
      · intro _
        rw [mcpRun_content query req _ ddgs fetch callAI u us hl, hnk]

/-- Witness for C7 (amended) at a concrete no-keys request. -/
theorem handle_mcp_c7_witness :
    ∃ r, handle_mcp_async { content := some "q7", provider := none }
          { mistral := false, gemini := false }
          (Except.ok [{ href := some "https://x.example" }])
          (fun _ => Except.ok (Node.text "some page text"))
          (fun _ _ => Except.ok "unused") = Except.ok r ∧
      r.response.provider = some (resolveRequested { content := some "q7", provider := none }) ∧
      (r.completions = [] ∨ ∃ c, r.completions = [c]) ∧
      (({ mistral := false, gemini := false } : Keys).mistral = false →
        ({ mistral := false, gemini := false } : Keys).gemini = false →
        r.completions = [] ∧ (r.fetched ≠ [] → r.response.content = noKeysMsg)) :=
  handle_mcp_c7_provider_always_set _ _ _ _ _ "q7" rfl

/-! ## C4: error sentinels and the prompt context -/

/-- The response's `sources` is always the 5-prefix of the searched links. -/
theorem mcpRun_sources (query : String) (req : Request) (keys : Keys)
    (ddgs : Except String (List SearchItem)) (fetch : String → Except String Node)
    (callAI : String → String → Except String String) :
    (mcpRun query req keys ddgs fetch callAI).response.sources =
      (search_duckduckgo ddgs).take 5 := by
  simp only [mcpRun, ite_isEmpty_take]

/-- With a supported provider name and at least one credential configured,
the fallback always lands on a provider that still has its key. -/
theorem noKeyLeft_false (p : String) (keys : Keys)
    (hp : p = "mistral" ∨ p = "gemini")
    (hk : keys.mistral = true ∨ keys.gemini = true) :
    noKeyLeft (fallbackProvider p keys) keys = false := by
  obtain ⟨m, g⟩ := keys
  dsimp only at hk
  rcases hp with h | h <;> subst h <;> rcases hk with h | h <;> subst h <;>
    first
    | rfl
    | (cases m <;> rfl)
    | (cases g <;> rfl)

/-- Whenever some credential is configured, the one completion call carries
the prompt built from the `"\n\n"`-join of the texts handed to
`generate_answer`. -/
theorem generate_answer_prompts (question : String) (texts : List String)
    (provider : String) (keys : Keys) (callAI : String → String → Except String String)
    (hp : provider = "mistral" ∨ provider = "gemini")
    (hk : keys.mistral = true ∨ keys.gemini = true) :
    (generate_answer question texts provider keys callAI).2.map Prod.fst =
      [mkPrompt question (String.intercalate "\n\n" texts)] := by
  rw [generate_answer_completions question texts provider keys callAI
      (noKeyLeft_false provider keys hp hk)]
  rfl

/-- Counterexample to C4 as stated: two fetched documents, the second a
scraping failure.  The prompt handed to the completion call contains the
`[Scraping Error]` sentinel text — the error document is NOT excluded from
the joined context (its URL does appear in `sources`); the exclusion the
claim describes would have produced the prompt built from `"good text"`
alone. -/
theorem handle_mcp_c4_counterexample :
    (handle_mcp_async { content := some "q", provider := none }
        { mistral := true, gemini := true }
        (Except.ok [{ href := some "https://a.example" }, { href := some "https://b.example" }])
        (fun u => if u == "https://a.example" then Except.ok (Node.text "good text")
                  else Except.error "timeout")
        (fun _ p => Except.ok ("by " ++ p))).map
        (fun r => (r.completions.map Prod.fst, r.response.sources)) =
      Except.ok
        (["Answer the question: q\n\nHere is the information found:\ngood text\n\n[Scraping Error] timeout"],
         ["https://a.example", "https://b.example"]) ∧
      ("Answer the question: q\n\nHere is the information found:\ngood text\n\n[Scraping Error] timeout" : String) ≠
        mkPrompt "q" "good text" := by
  refine ⟨rfl, ?_⟩
  decide

/-- C4 (amended): documents whose text starts with `[Scraping Error]` are
not excluded from the prompt: the context joined into the single completion
call's prompt is the `"\n\n"`-join of ALL scraped texts of the first 5
links, the sentinel texts included, while every fetched URL (the erroring
ones too) appears in `sources`.  (A filter matching the original claim
exists only in `rag.process_documents`, which this pipeline never calls.) -/
theorem handle_mcp_c4_all_texts_in_prompt (req : Request) (keys : Keys)
    (ddgs : Except String (List SearchItem)) (fetch : String → Except String Node)
    (callAI : String → String → Except String String) (query u : String) (us : List String)
    (hc : req.content = some query)
    (hl : search_duckduckgo ddgs = u :: us)
    (hk : keys.mistral = true ∨ keys.gemini = true) :
    (handle_mcp_async req keys ddgs fetch callAI).map
        (fun r => (r.completions.map Prod.fst, r.response.sources)) =
      Except.ok
        ([mkPrompt query (String.intercalate "\n\n"
            (((u :: us).take 5).map (scrape_async fetch)))],
         (u :: us).take 5) := by
  rw [handle_mcp_async_ok req keys ddgs fetch callAI query hc]
  simp only [Except.map, mcpRun_completions query req keys ddgs fetch callAI u us hl,
    mcpRun_sources query req keys ddgs fetch callAI, hl]
  rw [generate_answer_prompts query (((u :: us).take 5).map (scrape_async fetch))
      (resolveRequested req) keys callAI (resolveRequested_mem req) hk]

/-- Witness for C4 (amended): one good fetch, one timeout. -/
theorem handle_mcp_c4_witness :
    (handle_mcp_async { content := some "q4", provider := none }
        { mistral := true, gemini := true }
        (Except.ok [{ href := some "https://a4.example" }, { href := some "https://b4.example" }])
        (fun u => if u == "https://a4.example" then Except.ok (Node.text "text four")
                  else Except.error "timeout4")
        (fun _ p => Except.ok ("by " ++ p))).map
        (fun r => (r.completions.map Prod.fst, r.response.sources)) =
      Except.ok
        ([mkPrompt "q4" (String.intercalate "\n\n"
            ((["https://a4.example", "https://b4.example"].take 5).map
              (scrape_async (fun u => if u == "https://a4.example"
                then Except.ok (Node.text "text four") else Except.error "timeout4"))))],
         ["https://a4.example", "https://b4.example"].take 5) :=
  handle_mcp_c4_all_texts_in_prompt _ _ _ _ _ "q4" "https://a4.example"
    ["https://b4.example"] rfl rfl (Or.inl rfl)

/-! ## C10: search items without an `href` -/

/-- The scraped texts are the extraction of exactly the 5-prefix of the
searched links. -/
theorem mcpRun_contents (query : String) (req : Request) (keys : Keys)
    (ddgs : Except String (List SearchItem)) (fetch : String → Except String Node)
    (callAI : String → String → Except String String) :
    (mcpRun query req keys ddgs fetch callAI).contents =
      ((search_duckduckgo ddgs).take 5).map (scrape_async fetch) := by
  simp only [mcpRun, ite_isEmpty_take]

/-- Counterexample to C10 as stated: six search results whose sixth item
lacks `href`.  Its URL does become `""`, but it lies beyond the fan-out
width: `""` is neither fetched nor listed in `sources`, so "it is included
in the fetch fan-out and appears verbatim in `sources`" fails for this
item. -/
theorem handle_mcp_c10_counterexample :
    (handle_mcp_async { content := some "q", provider := none }
        { mistral := true, gemini := true }
        (Except.ok [{ href := some "u1" }, { href := some "u2" }, { href := some "u3" },
          { href := some "u4" }, { href := some "u5" }, { href := none }])
        (fun _ => Except.error "err") (fun _ _ => Except.ok "a")).map
        (fun r => (r.fetched, r.response.sources)) =
      Except.ok (["u1", "u2", "u3", "u4", "u5"], ["u1", "u2", "u3", "u4", "u5"]) ∧
      ¬ ("" ∈ (["u1", "u2", "u3", "u4", "u5"] : List String)) := by
  refine ⟨rfl, ?_⟩
  decide

/-- C10 (amended): a search result item lacking `"href"` contributes the
empty string as its URL; when that item lies among the first 5 results, the
empty string is included in the fetch fan-out and appears verbatim at the
item's position in `sources` (so `sources` elements are not guaranteed to
be non-empty or well-formed URLs), and — since the GET on `""` fails — the
corresponding scraped text is the `[Scraping Error]` sentinel.  Items
beyond the fan-out width are neither fetched nor listed. -/
theorem handle_mcp_c10_empty_href (req : Request) (keys : Keys)
    (results : List SearchItem) (fetch : String → Except String Node)
    (callAI : String → String → Except String String) (query e : String) (i : Nat)
    (hc : req.content = some query)
    (hi5 : i < 5)
    (hitem : ∃ item, results.get? i = some item ∧ item.href = none)
    (hfetch : fetch "" = Except.error e) :
    ∃ r, handle_mcp_async req keys (Except.ok results) fetch callAI = Except.ok r ∧
      r.fetched.get? i = some "" ∧
      r.response.sources.get? i = some "" ∧
      r.contents.get? i = some ("[Scraping Error] " ++ e) := by
  obtain ⟨item, hget, hhref⟩ := hitem
  rw [handle_mcp_async_ok req keys (Except.ok results) fetch callAI query hc]
  have hurl : (search_duckduckgo (Except.ok results)).get? i = some "" := by
    simp only [search_duckduckgo, List.get?_map, hget, Option.map_some', hhref,
      Option.getD_none]
  refine ⟨_, rfl, ?_, ?_, ?_⟩
  · rw [mcpRun_fetched, List.get?_take hi5, hurl]
  · rw [mcpRun_sources, List.get?_take hi5, hurl]
  · rw [mcpRun_contents, List.get?_map, List.get?_take hi5, hurl]
    simp only [Option.map_some', scrape_async, hfetch]

/-- Witness for C10 (amended): a single search result with no `href`. -/
theorem handle_mcp_c10_witness :
    ∃ r, handle_mcp_async { content := some "q10", provider := none }
          { mistral := true, gemini := true } (Except.ok [{ href := none }])
          (fun _ => Except.error "Request URL is missing protocol")
          (fun _ _ => Except.ok "a") = Except.ok r ∧
      r.fetched.get? 0 = some "" ∧
      r.response.sources.get? 0 = some "" ∧
      r.contents.get? 0 = some ("[Scraping Error] " ++ "Request URL is missing protocol") :=
  handle_mcp_c10_empty_href _ _ _ _ _ "q10" "Request URL is missing protocol" 0 rfl
    (by omega) ⟨{ href := none }, rfl, rfl⟩ rfl
